import Mathlib

/-!
# Verification of the hand-tracking core (Camera / GestureDetector / HandData)

Shallow embedding of the hand-pose pipeline: gesture classification from
21 MediaPipe landmarks, palm-size based depth estimation, orientation
estimation (basis construction and matrix-to-quaternion conversion), the
gesture → trigger/grip actuation lookup, and the text-protocol encoder.

Machine floats are modelled by real numbers; landmark lists are
`List Point` and out-of-range access is modelled by `List.getD` with a
zero default (the code guards every access behind a `len(landmarks) < 21`
check, so the default is never observable on the guarded paths).
-/

namespace HandCam

noncomputable section

open scoped Classical

/-- A 3D point / vector `(x, y, z)`, as the `(x, y, z)` tuples the code passes around. -/
abbrev Point : Type := ℝ × ℝ × ℝ

def pX (p : Point) : ℝ := p.1
def pY (p : Point) : ℝ := p.2.1
def pZ (p : Point) : ℝ := p.2.2

/-- Euclidean distance between two 3D points (`GestureDetector.calculate_distance`). -/
def calculate_distance (p1 p2 : Point) : ℝ :=
  Real.sqrt ((pX p1 - pX p2) ^ 2 + (pY p1 - pY p2) ^ 2 + (pZ p1 - pZ p2) ^ 2)

/-- Indexing `landmarks[i]`; every access in the code is guarded by a length check,
so the default value is never observable there. -/
def nth (lm : List Point) (i : ℕ) : Point := lm.getD i (0, 0, 0)

/-- MediaPipe hand landmark indices (class constants of `GestureDetector`). -/
def WRIST : ℕ := 0
def THUMB_MCP : ℕ := 2
def THUMB_TIP : ℕ := 4
def INDEX_FINGER_MCP : ℕ := 5
def INDEX_FINGER_TIP : ℕ := 8
def MIDDLE_FINGER_MCP : ℕ := 9
def MIDDLE_FINGER_TIP : ℕ := 12
def RING_FINGER_MCP : ℕ := 13
def RING_FINGER_TIP : ℕ := 16
def PINKY_MCP : ℕ := 17
def PINKY_TIP : ℕ := 20

/-- The `GestureDetector` instance state: the two configured thresholds. -/
structure GestureDetector where
  pinch_threshold : ℝ
  finger_extended_threshold : ℝ

/-- The `finger_tips` lookup table in `is_finger_extended`. -/
def finger_tip_index (finger_name : String) : Option ℕ :=
  if finger_name = "thumb" then some THUMB_TIP
  else if finger_name = "index" then some INDEX_FINGER_TIP
  else if finger_name = "middle" then some MIDDLE_FINGER_TIP
  else if finger_name = "ring" then some RING_FINGER_TIP
  else if finger_name = "pinky" then some PINKY_TIP
  else none

/-- The `finger_mcp` lookup table in `is_finger_extended`. -/
def finger_mcp_index (finger_name : String) : Option ℕ :=
  if finger_name = "thumb" then some THUMB_MCP
  else if finger_name = "index" then some INDEX_FINGER_MCP
  else if finger_name = "middle" then some MIDDLE_FINGER_MCP
  else if finger_name = "ring" then some RING_FINGER_MCP
  else if finger_name = "pinky" then some PINKY_MCP
  else none

/-- The method `GestureDetector.is_finger_extended`. -/
def GestureDetector.is_finger_extended (d : GestureDetector)
    (landmarks : List Point) (finger_name : String) : Prop :=
  if landmarks.length < 21 then False
  else
    match finger_tip_index finger_name, finger_mcp_index finger_name with
    | some tip_idx, some mcp_idx =>
      if finger_name = "thumb" then
        calculate_distance (nth landmarks tip_idx) (nth landmarks WRIST) >
          calculate_distance (nth landmarks mcp_idx) (nth landmarks WRIST) * 1.2
      else
        calculate_distance (nth landmarks tip_idx) (nth landmarks WRIST) >
          calculate_distance (nth landmarks mcp_idx) (nth landmarks WRIST) *
            d.finger_extended_threshold
    | _, _ => False

/-- The method `GestureDetector.detect_pinch`. -/
def GestureDetector.detect_pinch (d : GestureDetector) (landmarks : List Point) : Prop :=
  if landmarks.length < 21 then False
  else
    calculate_distance (nth landmarks THUMB_TIP) (nth landmarks INDEX_FINGER_TIP) <
      d.pinch_threshold

/-- The method `GestureDetector.detect_gesture`: the priority-ordered guard chain. -/
def GestureDetector.detect_gesture (d : GestureDetector) (landmarks : List Point) : String :=
  if landmarks.length < 21 then "UNKNOWN"
  else
    let thumb_extended := d.is_finger_extended landmarks "thumb"
    let index_extended := d.is_finger_extended landmarks "index"
    let middle_extended := d.is_finger_extended landmarks "middle"
    let ring_extended := d.is_finger_extended landmarks "ring"
    let pinky_extended := d.is_finger_extended landmarks "pinky"
    let extended_count : ℕ :=
      (if thumb_extended then 1 else 0) + (if index_extended then 1 else 0) +
      (if middle_extended then 1 else 0) + (if ring_extended then 1 else 0) +
      (if pinky_extended then 1 else 0)
    if d.detect_pinch landmarks then "PINCH"
    else if extended_count = 0 then "FIST"
    else if index_extended ∧ ¬middle_extended ∧ ¬ring_extended ∧ ¬pinky_extended ∧
        ¬thumb_extended then "POINT"
    else if index_extended ∧ middle_extended ∧ ¬ring_extended ∧ ¬pinky_extended then "PEACE"
    else if thumb_extended ∧ ¬index_extended ∧ ¬middle_extended ∧ ¬ring_extended ∧
        ¬pinky_extended then "THUMBS_UP"
    else if 4 ≤ extended_count then "OPEN"
    else "UNKNOWN"

/-- The method `GestureDetector.get_trigger_value` (reads no instance state). -/
def get_trigger_value (gesture : String) : ℝ :=
  if gesture = "POINT" then 0.8
  else if gesture = "PINCH" then 1.0
  else 0.0

/-- The method `GestureDetector.get_grip_value` (reads no instance state). -/
def get_grip_value (gesture : String) : ℝ :=
  if gesture = "FIST" then 1.0
  else if gesture = "PINCH" then 0.5
  else 0.0

/-! ## Vector helpers (numpy operations used by `calculate_hand_orientation`) -/

/-- Componentwise subtraction of 3-vectors (`np` array subtraction). -/
def vsub (p q : Point) : Point := (pX p - pX q, pY p - pY q, pZ p - pZ q)

/-- Sum of squared components. -/
def sumSq (p : Point) : ℝ := pX p ^ 2 + pY p ^ 2 + pZ p ^ 2

/-- The Euclidean norm (`np.linalg.norm`). -/
def vnorm (p : Point) : ℝ := Real.sqrt (sumSq p)

/-- Division of a 3-vector by a scalar. -/
def vdiv (p : Point) (s : ℝ) : Point := (pX p / s, pY p / s, pZ p / s)

/-- The 3D cross product (`np.cross`). -/
def cross (p q : Point) : Point :=
  (pY p * pZ q - pZ p * pY q,
   pZ p * pX q - pX p * pZ q,
   pX p * pY q - pY p * pX q)

/-- Dot product of 3-vectors. -/
def dot (p q : Point) : ℝ := pX p * pX q + pY p * pY q + pZ p * pZ q

/-! ## `GestureDetector.calculate_hand_orientation`

The sequential basis construction of the Python code, split into named
values (`forward`, `right`, `up` before and after their normalization /
fallback steps), followed by the four-branch matrix-to-quaternion
conversion.  The code unpacks `m00, m01, m02 = right`,
`m10, m11, m12 = up`, `m20, m21, m22 = forward`, i.e. the three vectors
are the ROWS of the matrix `(m_ij)` that the conversion consumes. -/

/-- The vector `forward = middle_mcp - wrist` (before normalization). -/
def forwardRaw (lm : List Point) : Point :=
  vsub (nth lm MIDDLE_FINGER_MCP) (nth lm WRIST)

/-- The normalized forward vector (meaningful only when `forwardRaw` is nonzero;
the caller returns the identity quaternion otherwise). -/
def forwardVec (lm : List Point) : Point :=
  vdiv (forwardRaw lm) (vnorm (forwardRaw lm))

/-- The vector `right = middle_mcp - index_mcp` (before normalization). -/
def rightRaw (lm : List Point) : Point :=
  vsub (nth lm MIDDLE_FINGER_MCP) (nth lm INDEX_FINGER_MCP)

/-- The right vector after the normalize-or-fallback step:
normalized when nonzero, else the fallback `(1, 0, 0)`. -/
def rightUnit (lm : List Point) : Point :=
  if vnorm (rightRaw lm) > 0 then vdiv (rightRaw lm) (vnorm (rightRaw lm)) else (1, 0, 0)

/-- The vector `up = np.cross(forward, right)` (before normalization). -/
def upRaw (lm : List Point) : Point := cross (forwardVec lm) (rightUnit lm)

/-- The up vector after the normalize-or-fallback step:
normalized when nonzero, else the fallback `(0, 1, 0)`. -/
def upVec (lm : List Point) : Point :=
  if vnorm (upRaw lm) > 0 then vdiv (upRaw lm) (vnorm (upRaw lm)) else (0, 1, 0)

/-- The re-orthogonalized right vector: `right = np.cross(up, forward)`. -/
def rightVec (lm : List Point) : Point := cross (upVec lm) (forwardVec lm)

/-- The four-branch matrix-to-quaternion conversion at the end of
`calculate_hand_orientation`, applied to the matrix whose ROWS are the
three given vectors (`m00, m01, m02 = right`, `m10, m11, m12 = up`,
`m20, m21, m22 = forward`). -/
def quatFromRows (right up forward : Point) : ℝ × ℝ × ℝ × ℝ :=
  let m00 := pX right
  let m01 := pY right
  let m02 := pZ right
  let m10 := pX up
  let m11 := pY up
  let m12 := pZ up
  let m20 := pX forward
  let m21 := pY forward
  let m22 := pZ forward
  let trace := m00 + m11 + m22
  if trace > 0 then
    let s := 0.5 / Real.sqrt (trace + 1.0)
    (0.25 / s, (m21 - m12) * s, (m02 - m20) * s, (m10 - m01) * s)
  else if m00 > m11 ∧ m00 > m22 then
    let s := 2.0 * Real.sqrt (1.0 + m00 - m11 - m22)
    ((m21 - m12) / s, 0.25 * s, (m01 + m10) / s, (m02 + m20) / s)
  else if m11 > m22 then
    let s := 2.0 * Real.sqrt (1.0 + m11 - m00 - m22)
    ((m02 - m20) / s, (m01 + m10) / s, 0.25 * s, (m12 + m21) / s)
  else
    let s := 2.0 * Real.sqrt (1.0 + m22 - m00 - m11)
    ((m10 - m01) / s, (m02 + m20) / s, (m12 + m21) / s, 0.25 * s)

/-- The method `GestureDetector.calculate_hand_orientation`. -/
def GestureDetector.calculate_hand_orientation (_d : GestureDetector)
    (landmarks : List Point) : ℝ × ℝ × ℝ × ℝ :=
  if landmarks.length < 21 then (1.0, 0.0, 0.0, 0.0)
  else if vnorm (forwardRaw landmarks) > 0 then
    quatFromRows (rightVec landmarks) (upVec landmarks) (forwardVec landmarks)
  else (1.0, 0.0, 0.0, 0.0)

/-- The squared norm of a quaternion `(qw, qx, qy, qz)`. -/
def quatNormSq (q : ℝ × ℝ × ℝ × ℝ) : ℝ :=
  q.1 ^ 2 + q.2.1 ^ 2 + q.2.2.1 ^ 2 + q.2.2.2 ^ 2

/-! ## `HandTracker` (Camera.py): palm size and position estimation -/

/-- The method `HandTracker.calculate_palm_size`. -/
def calculate_palm_size (landmarks : List Point) : ℝ :=
  if landmarks.length < 21 then 0.1
  else
    (calculate_distance (nth landmarks 0) (nth landmarks 5) +
     calculate_distance (nth landmarks 0) (nth landmarks 17) +
     calculate_distance (nth landmarks 5) (nth landmarks 17)) / 3.0

/-- The calibration configuration read by `process_hand_landmarks`. -/
structure Calibration where
  scale : ℝ
  position_offset : Point

/-- The position computation inside `HandTracker.process_hand_landmarks`:
centered x/y from the wrist landmark, heuristic depth from palm size,
then the calibration transform. -/
def hand_position (cal : Calibration) (landmarks : List Point) : Point :=
  let wrist := nth landmarks 0
  let x := (pX wrist - 0.5) * 2.0
  let y := -(pY wrist - 0.5) * 2.0
  let palm_size := calculate_palm_size landmarks
  let z := -0.5 - palm_size * 2.0
  (x * cal.scale + pX cal.position_offset,
   y * cal.scale + pY cal.position_offset,
   z * cal.scale + pZ cal.position_offset)

/-! ## `HandData` (hand_data.py) and the protocol encoder -/

/-- The `HandData` dataclass. -/
structure HandData where
  hand_type : String
  position : Point
  rotation : ℝ × ℝ × ℝ × ℝ
  gesture : String
  trigger_value : ℝ
  grip_value : ℝ
  landmarks : List Point
  is_detected : Bool

/-- The method `HandTracker.process_hand_landmarks`: assemble a `HandData` from the
landmark list and handedness label (frame size parameters are unused). -/
def process_hand_landmarks (d : GestureDetector) (cal : Calibration)
    (landmarks : List Point) (hand_label : String) : HandData :=
  let gesture := d.detect_gesture landmarks
  { hand_type := if hand_label = "Left" then "left" else "right"
    position := hand_position cal landmarks
    rotation := d.calculate_hand_orientation landmarks
    gesture := gesture
    trigger_value := get_trigger_value gesture
    grip_value := get_grip_value gesture
    landmarks := landmarks
    is_detected := true }

/-- A single decimal digit character. -/
def digitChar (n : ℕ) : Char :=
  if n = 0 then '0' else if n = 1 then '1' else if n = 2 then '2'
  else if n = 3 then '3' else if n = 4 then '4' else if n = 5 then '5'
  else if n = 6 then '6' else if n = 7 then '7' else if n = 8 then '8' else '9'

/-- Rendering of `n mod 10^k` as exactly `k` digit characters, most significant first
(the zero-padded fractional part of fixed-point formatting). -/
def fixedDigits : ℕ → ℕ → List Char
  | 0, _ => []
  | k + 1, n => fixedDigits k (n / 10) ++ [digitChar (n % 10)]

/-- A natural number rendered in decimal (no padding). -/
def natChars (n : ℕ) : List Char :=
  if _h : n < 10 then [digitChar n]
  else natChars (n / 10) ++ [digitChar (n % 10)]
decreasing_by exact Nat.div_lt_self (by omega) (by omega)

/-- Python's fixed-point formatting of `x` with `nd` decimal places,
modelled over the reals: round `x` to `nd` decimal places, then render
sign, integer part, a dot and exactly `nd` fractional digits. -/
def fmtFixed (nd : ℕ) (x : ℝ) : List Char :=
  (if round (x * 10 ^ nd) < 0 then ['-'] else []) ++
    natChars ((round (x * 10 ^ nd)).natAbs / 10 ^ nd) ++
    ['.'] ++ fixedDigits nd ((round (x * 10 ^ nd)).natAbs % 10 ^ nd)

/-- The method `HandData.to_protocol_string`, as the list of characters of the record
(no newline; the socket layer appends it). -/
def HandData.to_protocol_string (h : HandData) : List Char :=
  "HAND:".data ++ h.hand_type.data.map Char.toUpper ++
  ",X:".data ++ fmtFixed 4 (pX h.position) ++
  ",Y:".data ++ fmtFixed 4 (pY h.position) ++
  ",Z:".data ++ fmtFixed 4 (pZ h.position) ++
  ",QW:".data ++ fmtFixed 4 h.rotation.1 ++
  ",QX:".data ++ fmtFixed 4 h.rotation.2.1 ++
  ",QY:".data ++ fmtFixed 4 h.rotation.2.2.1 ++
  ",QZ:".data ++ fmtFixed 4 h.rotation.2.2.2 ++
  ",TRIGGER:".data ++ fmtFixed 2 h.trigger_value ++
  ",GRIP:".data ++ fmtFixed 2 h.grip_value ++
  ",GESTURE:".data ++ h.gesture.data

/-- The newline guard in `SocketClient.send`: append `'\n'` unless the
payload already ends with one. -/
def send_payload (data : List Char) : List Char :=
  if data.getLast? = some '\n' then data else data ++ ['\n']

/-- The full wire record for one hand: `send(hand_data.to_protocol_string())`. -/
def wireRecord (h : HandData) : List Char :=
  send_payload h.to_protocol_string

/-! ## Shared concrete inputs used by witnesses and counterexamples -/

/-- A detector with the default configuration
(`pinch_threshold = 0.05`, `finger_extended_threshold = 0.6`). -/
def d0 : GestureDetector := ⟨0.05, 0.6⟩

/-- The default calibration (`scale = 1.0`, zero offset). -/
def cal0 : Calibration := ⟨1, (0, 0, 0)⟩

/-- A 21-point landmark list with every landmark at the origin. -/
def lmZeros : List Point :=
  [(0, 0, 0), (0, 0, 0), (0, 0, 0), (0, 0, 0), (0, 0, 0), (0, 0, 0), (0, 0, 0),
   (0, 0, 0), (0, 0, 0), (0, 0, 0), (0, 0, 0), (0, 0, 0), (0, 0, 0), (0, 0, 0),
   (0, 0, 0), (0, 0, 0), (0, 0, 0), (0, 0, 0), (0, 0, 0), (0, 0, 0), (0, 0, 0)]

/-- Landmarks (21), all zero except the index MCP (index 5) at `(1, 0, 0)`:
its palm size is `2/3`. -/
def lmPalm : List Point :=
  [(0, 0, 0), (0, 0, 0), (0, 0, 0), (0, 0, 0), (0, 0, 0), (1, 0, 0), (0, 0, 0),
   (0, 0, 0), (0, 0, 0), (0, 0, 0), (0, 0, 0), (0, 0, 0), (0, 0, 0), (0, 0, 0),
   (0, 0, 0), (0, 0, 0), (0, 0, 0), (0, 0, 0), (0, 0, 0), (0, 0, 0), (0, 0, 0)]

/-! ## Basic lemmas -/

theorem sumSq_nonneg (p : Point) : 0 ≤ sumSq p := by
  unfold sumSq; positivity

theorem vnorm_nonneg (p : Point) : 0 ≤ vnorm p := Real.sqrt_nonneg _

theorem vnorm_sq (p : Point) : vnorm p ^ 2 = sumSq p :=
  Real.sq_sqrt (sumSq_nonneg p)

theorem vnorm_pos_iff (p : Point) : 0 < vnorm p ↔ 0 < sumSq p := by
  unfold vnorm; rw [Real.sqrt_pos]

/-- Normalizing a nonzero vector yields a vector whose squared components sum to 1. -/
theorem sumSq_vdiv_vnorm (p : Point) (h : 0 < vnorm p) :
    sumSq (vdiv p (vnorm p)) = 1 := by
  have hs : 0 < sumSq p := (vnorm_pos_iff p).mp h
  have hv : vnorm p ^ 2 = sumSq p := vnorm_sq p
  unfold sumSq vdiv pX pY pZ at *
  field_simp
  linarith [hv]

/-- A 21-point landmark family witnessing the ratio gate: the index MCP at
distance 1 from the wrist and the index tip at distance `(t+1)/2`. -/
def lmRatio (t : ℝ) : List Point :=
  [(0, 0, 0), (0, 0, 0), (0, 0, 0), (0, 0, 0), (0, 0, 0), (1, 0, 0), (0, 0, 0),
   (0, 0, 0), ((t + 1) / 2, 0, 0), (0, 0, 0), (0, 0, 0), (0, 0, 0), (0, 0, 0), (0, 0, 0),
   (0, 0, 0), (0, 0, 0), (0, 0, 0), (0, 0, 0), (0, 0, 0), (0, 0, 0), (0, 0, 0)]

/-- Unfolding `is_finger_extended` at the name `"thumb"` on a full list. -/
theorem is_finger_extended_thumb (d : GestureDetector) (lm : List Point)
    (h : ¬lm.length < 21) :
    d.is_finger_extended lm "thumb" ↔
      calculate_distance (nth lm THUMB_TIP) (nth lm WRIST) >
        calculate_distance (nth lm THUMB_MCP) (nth lm WRIST) * 1.2 := by
  simp [GestureDetector.is_finger_extended, h, finger_tip_index, finger_mcp_index]

/-- Unfolding `is_finger_extended` at the name `"index"` on a full list. -/
theorem is_finger_extended_index (d : GestureDetector) (lm : List Point)
    (h : ¬lm.length < 21) :
    d.is_finger_extended lm "index" ↔
      calculate_distance (nth lm INDEX_FINGER_TIP) (nth lm WRIST) >
        calculate_distance (nth lm INDEX_FINGER_MCP) (nth lm WRIST) *
          d.finger_extended_threshold := by
  simp [GestureDetector.is_finger_extended, h, finger_tip_index, finger_mcp_index]

/-! ## C2: finger extension classification -/

/-- C2: on a 21-point list, the thumb is extended iff
`dist(tip, wrist) > dist(mcp, wrist) * 1.2`; each other finger is extended iff
`dist(tip, wrist) > dist(mcp, wrist) * extensionThreshold`; the non-thumb ratio
gate can be satisfied with the tip strictly closer to the wrist than the MCP
whenever the threshold is below 1; and on any list shorter than 21 points every
finger reports not extended. -/
theorem C2_finger_extension (d : GestureDetector) (lm : List Point) (h : lm.length = 21) :
    (d.is_finger_extended lm "thumb" ↔
      calculate_distance (nth lm THUMB_TIP) (nth lm WRIST) >
        calculate_distance (nth lm THUMB_MCP) (nth lm WRIST) * 1.2) ∧
    (d.is_finger_extended lm "index" ↔
      calculate_distance (nth lm INDEX_FINGER_TIP) (nth lm WRIST) >
        calculate_distance (nth lm INDEX_FINGER_MCP) (nth lm WRIST) *
          d.finger_extended_threshold) ∧
    (d.is_finger_extended lm "middle" ↔
      calculate_distance (nth lm MIDDLE_FINGER_TIP) (nth lm WRIST) >
        calculate_distance (nth lm MIDDLE_FINGER_MCP) (nth lm WRIST) *
          d.finger_extended_threshold) ∧
    (d.is_finger_extended lm "ring" ↔
      calculate_distance (nth lm RING_FINGER_TIP) (nth lm WRIST) >
        calculate_distance (nth lm RING_FINGER_MCP) (nth lm WRIST) *
          d.finger_extended_threshold) ∧
    (d.is_finger_extended lm "pinky" ↔
      calculate_distance (nth lm PINKY_TIP) (nth lm WRIST) >
        calculate_distance (nth lm PINKY_MCP) (nth lm WRIST) *
          d.finger_extended_threshold) ∧
    (∀ lm' : List Point, lm'.length < 21 →
      ∀ finger_name : String, ¬d.is_finger_extended lm' finger_name) ∧
    (∀ t : ℝ, 0 < t → t < 1 →
      ∃ lm' : List Point, lm'.length = 21 ∧
        (GestureDetector.mk d.pinch_threshold t).is_finger_extended lm' "index" ∧
        calculate_distance (nth lm' INDEX_FINGER_TIP) (nth lm' WRIST) <
          calculate_distance (nth lm' INDEX_FINGER_MCP) (nth lm' WRIST)) := by
  have hlt : ¬lm.length < 21 := by omega
  refine ⟨?_, ?_, ?_, ?_, ?_, ?_, ?_⟩
  · exact is_finger_extended_thumb d lm hlt
  · simp [GestureDetector.is_finger_extended, hlt, finger_tip_index, finger_mcp_index]
  · simp [GestureDetector.is_finger_extended, hlt, finger_tip_index, finger_mcp_index]
  · simp [GestureDetector.is_finger_extended, hlt, finger_tip_index, finger_mcp_index]
  · simp [GestureDetector.is_finger_extended, hlt, finger_tip_index, finger_mcp_index]
  · intro lm' hlen finger_name
    simp [GestureDetector.is_finger_extended, hlen]
  · intro t ht0 ht1
    have dtip : calculate_distance ((t + 1) / 2, 0, 0) ((0 : ℝ), (0 : ℝ), (0 : ℝ)) =
        (t + 1) / 2 := by
      unfold calculate_distance pX pY pZ
      rw [show ((t + 1) / 2 - 0) ^ 2 + ((0 : ℝ) - 0) ^ 2 + ((0 : ℝ) - 0) ^ 2 =
        ((t + 1) / 2) ^ 2 by ring, Real.sqrt_sq (by linarith)]
    have dmcp : calculate_distance ((1 : ℝ), (0 : ℝ), (0 : ℝ)) ((0 : ℝ), (0 : ℝ), (0 : ℝ)) =
        1 := by
      unfold calculate_distance pX pY pZ
      rw [show ((1 : ℝ) - 0) ^ 2 + ((0 : ℝ) - 0) ^ 2 + ((0 : ℝ) - 0) ^ 2 = 1 by ring,
        Real.sqrt_one]
    have hlen : ¬(lmRatio t).length < 21 := by simp [lmRatio]
    have n8 : nth (lmRatio t) INDEX_FINGER_TIP = ((t + 1) / 2, 0, 0) := rfl
    have n5 : nth (lmRatio t) INDEX_FINGER_MCP = ((1 : ℝ), (0 : ℝ), (0 : ℝ)) := rfl
    have n0 : nth (lmRatio t) WRIST = ((0 : ℝ), (0 : ℝ), (0 : ℝ)) := rfl
    refine ⟨lmRatio t, rfl, ?_, ?_⟩
    · rw [is_finger_extended_index _ _ hlen, n8, n5, n0, dtip, dmcp]
      show (t + 1) / 2 > 1 * t
      linarith
    · rw [n8, n5, n0, dtip, dmcp]
      linarith

/-- Witness for C2 at a concrete 21-point landmark list. -/
theorem C2_finger_extension_witness :
    lmZeros.length = 21 ∧
    ((d0.is_finger_extended lmZeros "thumb" ↔
      calculate_distance (nth lmZeros THUMB_TIP) (nth lmZeros WRIST) >
        calculate_distance (nth lmZeros THUMB_MCP) (nth lmZeros WRIST) * 1.2) ∧
    (d0.is_finger_extended lmZeros "index" ↔
      calculate_distance (nth lmZeros INDEX_FINGER_TIP) (nth lmZeros WRIST) >
        calculate_distance (nth lmZeros INDEX_FINGER_MCP) (nth lmZeros WRIST) *
          d0.finger_extended_threshold) ∧
    (d0.is_finger_extended lmZeros "middle" ↔
      calculate_distance (nth lmZeros MIDDLE_FINGER_TIP) (nth lmZeros WRIST) >
        calculate_distance (nth lmZeros MIDDLE_FINGER_MCP) (nth lmZeros WRIST) *
          d0.finger_extended_threshold) ∧
    (d0.is_finger_extended lmZeros "ring" ↔
      calculate_distance (nth lmZeros RING_FINGER_TIP) (nth lmZeros WRIST) >
        calculate_distance (nth lmZeros RING_FINGER_MCP) (nth lmZeros WRIST) *
          d0.finger_extended_threshold) ∧
    (d0.is_finger_extended lmZeros "pinky" ↔
      calculate_distance (nth lmZeros PINKY_TIP) (nth lmZeros WRIST) >
        calculate_distance (nth lmZeros PINKY_MCP) (nth lmZeros WRIST) *
          d0.finger_extended_threshold) ∧
    (∀ lm' : List Point, lm'.length < 21 →
      ∀ finger_name : String, ¬d0.is_finger_extended lm' finger_name) ∧
    (∀ t : ℝ, 0 < t → t < 1 →
      ∃ lm' : List Point, lm'.length = 21 ∧
        (GestureDetector.mk d0.pinch_threshold t).is_finger_extended lm' "index" ∧
        calculate_distance (nth lm' INDEX_FINGER_TIP) (nth lm' WRIST) <
          calculate_distance (nth lm' INDEX_FINGER_MCP) (nth lm' WRIST))) :=
  ⟨rfl, C2_finger_extension d0 lmZeros rfl⟩

/-! ## C9: the gesture → (trigger, grip) actuation lookup -/

/-- C9: the actuation mapping is the fixed lookup Point → (0.8, 0.0),
Pinch → (1.0, 0.5), Fist → (0.0, 1.0), everything else → (0.0, 0.0),
and both values always lie in [0, 1]. -/
theorem C9_actuation_mapping :
    (get_trigger_value "POINT" = 0.8 ∧ get_grip_value "POINT" = 0.0) ∧
    (get_trigger_value "PINCH" = 1.0 ∧ get_grip_value "PINCH" = 0.5) ∧
    (get_trigger_value "FIST" = 0.0 ∧ get_grip_value "FIST" = 1.0) ∧
    (∀ gesture : String, gesture ≠ "POINT" → gesture ≠ "PINCH" → gesture ≠ "FIST" →
      get_trigger_value gesture = 0.0 ∧ get_grip_value gesture = 0.0) ∧
    (∀ gesture : String, 0 ≤ get_trigger_value gesture ∧ get_trigger_value gesture ≤ 1 ∧
      0 ≤ get_grip_value gesture ∧ get_grip_value gesture ≤ 1) := by
  refine ⟨⟨?_, ?_⟩, ⟨?_, ?_⟩, ⟨?_, ?_⟩, ?_, ?_⟩
  · simp [get_trigger_value]
  · simp [get_grip_value]
  · simp [get_trigger_value]
  · simp [get_grip_value]
  · simp [get_trigger_value]
  · simp [get_grip_value]
  · intro gesture h1 h2 h3
    simp [get_trigger_value, get_grip_value, h1, h2, h3]
  · intro gesture
    unfold get_trigger_value get_grip_value
    refine ⟨?_, ?_, ?_, ?_⟩ <;> split_ifs <;> norm_num

/-- Witness for C9 applied at the gesture name `"PEACE"`. -/
theorem C9_actuation_mapping_witness :
    get_trigger_value "PEACE" = 0.0 ∧ get_grip_value "PEACE" = 0.0 :=
  C9_actuation_mapping.2.2.2.1 "PEACE" (by simp) (by simp) (by simp)

/-! ## C7: position estimation -/

/-- C7: on a 21-point list the estimated position is elementwise
`raw * scale + offset` with `raw = ((x - 0.5) * 2, -(y - 0.5) * 2, -0.5 - palm * 2)`
where `palm` is the mean of the three pairwise distances among wrist,
index MCP and pinky MCP (the detector's raw z never enters); on a list
shorter than 21 points the palm size falls back to the constant 0.1. -/
theorem C7_position_estimation (cal : Calibration) (lm : List Point) (h : lm.length = 21) :
    hand_position cal lm =
      ((pX (nth lm 0) - 0.5) * 2 * cal.scale + pX cal.position_offset,
       -(pY (nth lm 0) - 0.5) * 2 * cal.scale + pY cal.position_offset,
       (-0.5 -
          (calculate_distance (nth lm 0) (nth lm 5) +
           calculate_distance (nth lm 0) (nth lm 17) +
           calculate_distance (nth lm 5) (nth lm 17)) / 3 * 2) * cal.scale +
         pZ cal.position_offset) ∧
    (∀ lm' : List Point, lm'.length < 21 → calculate_palm_size lm' = 0.1) := by
  constructor
  · have hlt : ¬lm.length < 21 := by omega
    simp only [hand_position, calculate_palm_size, hlt, if_false]
    norm_num
  · intro lm' hl
    simp [calculate_palm_size, hl]

/-- Witness for C7 at a concrete 21-point landmark list. -/
theorem C7_position_estimation_witness :
    lmZeros.length = 21 ∧
    (hand_position cal0 lmZeros =
      ((pX (nth lmZeros 0) - 0.5) * 2 * cal0.scale + pX cal0.position_offset,
       -(pY (nth lmZeros 0) - 0.5) * 2 * cal0.scale + pY cal0.position_offset,
       (-0.5 -
          (calculate_distance (nth lmZeros 0) (nth lmZeros 5) +
           calculate_distance (nth lmZeros 0) (nth lmZeros 17) +
           calculate_distance (nth lmZeros 5) (nth lmZeros 17)) / 3 * 2) * cal0.scale +
         pZ cal0.position_offset) ∧
    (∀ lm' : List Point, lm'.length < 21 → calculate_palm_size lm' = 0.1)) :=
  ⟨rfl, C7_position_estimation cal0 lmZeros rfl⟩

/-! ## C8: depth strictly decreasing in palm size -/

/-- C8: for a fixed calibration (`scale ≥ 0.1`, the configuration policy
from the data model), the final Z coordinate strictly decreases as the
computed palm size increases. -/
theorem C8_depth_strict_mono (cal : Calibration) (hscale : 0.1 ≤ cal.scale)
    (lm1 lm2 : List Point) (_h1 : lm1.length = 21) (_h2 : lm2.length = 21)
    (hp : calculate_palm_size lm1 < calculate_palm_size lm2) :
    pZ (hand_position cal lm2) < pZ (hand_position cal lm1) := by
  have hs : (0 : ℝ) < cal.scale := by norm_num at hscale ⊢; linarith
  simp only [hand_position, pZ]
  have key : 0 < cal.scale * (calculate_palm_size lm2 - calculate_palm_size lm1) :=
    mul_pos hs (by linarith)
  norm_num
  nlinarith [key]

/-- Palm size of the all-zero landmark list. -/
theorem palm_lmZeros : calculate_palm_size lmZeros = 0 := by
  have e0 : nth lmZeros 0 = ((0 : ℝ), (0 : ℝ), (0 : ℝ)) := rfl
  have e5 : nth lmZeros 5 = ((0 : ℝ), (0 : ℝ), (0 : ℝ)) := rfl
  have e17 : nth lmZeros 17 = ((0 : ℝ), (0 : ℝ), (0 : ℝ)) := rfl
  have hlen : ¬lmZeros.length < 21 := by simp [lmZeros]
  simp only [calculate_palm_size, hlen, if_false, e0, e5, e17]
  unfold calculate_distance pX pY pZ
  norm_num

/-- Palm size of the `lmPalm` landmark list. -/
theorem palm_lmPalm : calculate_palm_size lmPalm = 2 / 3 := by
  have e0 : nth lmPalm 0 = ((0 : ℝ), (0 : ℝ), (0 : ℝ)) := rfl
  have e5 : nth lmPalm 5 = ((1 : ℝ), (0 : ℝ), (0 : ℝ)) := rfl
  have e17 : nth lmPalm 17 = ((0 : ℝ), (0 : ℝ), (0 : ℝ)) := rfl
  have hlen : ¬lmPalm.length < 21 := by simp [lmPalm]
  simp only [calculate_palm_size, hlen, if_false, e0, e5, e17]
  unfold calculate_distance pX pY pZ
  norm_num [Real.sqrt_one]

/-- Witness for C8: the all-zero hand has palm size 0, the `lmPalm` hand
has palm size 2/3, and the depth strictly decreases between them. -/
theorem C8_depth_strict_mono_witness :
    (0.1 ≤ cal0.scale ∧ lmZeros.length = 21 ∧ lmPalm.length = 21 ∧
      calculate_palm_size lmZeros < calculate_palm_size lmPalm) ∧
    pZ (hand_position cal0 lmPalm) < pZ (hand_position cal0 lmZeros) := by
  have hlt : calculate_palm_size lmZeros < calculate_palm_size lmPalm := by
    rw [palm_lmZeros, palm_lmPalm]; norm_num
  exact ⟨⟨by norm_num [cal0], rfl, rfl, hlt⟩,
    C8_depth_strict_mono cal0 (by norm_num [cal0]) lmZeros lmPalm rfl rfl hlt⟩

/-- Counterexample to C8 as literally quantified over every calibration
scale: with scale 0 (which `process_hand_landmarks` itself never rules out)
the final Z is constant, so it is not strictly decreasing in palm size. -/
theorem C8_zero_scale_counterexample :
    calculate_palm_size lmZeros < calculate_palm_size lmPalm ∧
    lmZeros.length = 21 ∧ lmPalm.length = 21 ∧
    ¬(pZ (hand_position ⟨0, (0, 0, 0)⟩ lmPalm) <
        pZ (hand_position ⟨0, (0, 0, 0)⟩ lmZeros)) := by
  refine ⟨by rw [palm_lmZeros, palm_lmPalm]; norm_num, rfl, rfl, ?_⟩
  unfold hand_position pZ
  norm_num

/-! ## Branch-argument positivity for the quaternion conversion -/

/-- The square-root argument of the branch of `quatFromRows` that the guards
select (only the diagonal entries of the matrix enter the guards). -/
def selectedBranchArg (right up forward : Point) : ℝ :=
  let m00 := pX right
  let m11 := pY up
  let m22 := pZ forward
  let trace := m00 + m11 + m22
  if trace > 0 then trace + 1
  else if m00 > m11 ∧ m00 > m22 then 1 + m00 - m11 - m22
  else if m11 > m22 then 1 + m11 - m00 - m22
  else 1 + m22 - m00 - m11

/-- If every diagonal entry is at most 1, the selected branch's square-root
argument is strictly positive. -/
theorem branchArg_pos_of_diag_le (m00 m11 m22 : ℝ)
    (hb0 : m00 ≤ 1) (_hb1 : m11 ≤ 1) (_hb2 : m22 ≤ 1) :
    0 < if m00 + m11 + m22 > 0 then m00 + m11 + m22 + 1
        else if m00 > m11 ∧ m00 > m22 then 1 + m00 - m11 - m22
        else if m11 > m22 then 1 + m11 - m00 - m22
        else 1 + m22 - m00 - m11 := by
  split_ifs with ht hd1 hd2
  · linarith
  · linarith [hd1.1, hd1.2]
  · push_neg at ht hd1
    rcases le_or_lt m00 m11 with hc | hc
    · linarith
    · have := hd1 hc
      linarith
  · push_neg at ht hd1 hd2
    rcases le_or_lt m00 m11 with hc | hc
    · rcases le_or_lt 0 m22 with hz | hz
      · linarith
      · linarith
    · have hm2 := hd1 hc
      rcases le_or_lt 0 m22 with hz | hz
      · linarith
      · linarith

theorem pX_le_one_of_sumSq (p : Point) (h : sumSq p = 1) : pX p ≤ 1 := by
  unfold sumSq at h
  nlinarith [sq_nonneg (pX p - 1), sq_nonneg (pY p), sq_nonneg (pZ p)]

theorem pY_le_one_of_sumSq (p : Point) (h : sumSq p = 1) : pY p ≤ 1 := by
  unfold sumSq at h
  nlinarith [sq_nonneg (pY p - 1), sq_nonneg (pX p), sq_nonneg (pZ p)]

theorem pZ_le_one_of_sumSq (p : Point) (h : sumSq p = 1) : pZ p ≤ 1 := by
  unfold sumSq at h
  nlinarith [sq_nonneg (pZ p - 1), sq_nonneg (pX p), sq_nonneg (pY p)]

/-- The up vector always has unit squared norm: it is either a normalized
nonzero vector or the fallback `(0, 1, 0)`. -/
theorem sumSq_upVec (lm : List Point) : sumSq (upVec lm) = 1 := by
  unfold upVec
  split_ifs with h
  · exact sumSq_vdiv_vnorm _ h
  · unfold sumSq pX pY pZ
    norm_num

/-- The normalized forward vector has unit squared norm when `forwardRaw` is nonzero. -/
theorem sumSq_forwardVec (lm : List Point) (h : 0 < vnorm (forwardRaw lm)) :
    sumSq (forwardVec lm) = 1 :=
  sumSq_vdiv_vnorm _ h

/-- The first component of a cross product of two unit vectors is at most 1. -/
theorem cross_pX_le_one (u f : Point) (hu : sumSq u = 1) (hf : sumSq f = 1) :
    pX (cross u f) ≤ 1 := by
  unfold sumSq at hu hf
  have hy : pY u ^ 2 + pZ u ^ 2 = 1 - pX u ^ 2 := by linarith
  have hg : pY f ^ 2 + pZ f ^ 2 = 1 - pX f ^ 2 := by linarith
  have key : (pY u * pZ f - pZ u * pY f) ^ 2 + (pY u * pY f + pZ u * pZ f) ^ 2 =
      (1 - pX u ^ 2) * (1 - pX f ^ 2) := by
    rw [← hy, ← hg]; ring
  have hx1 : pX u ^ 2 ≤ 1 := by nlinarith [sq_nonneg (pY u), sq_nonneg (pZ u)]
  have hd1 : pX f ^ 2 ≤ 1 := by nlinarith [sq_nonneg (pY f), sq_nonneg (pZ f)]
  have hprod : (1 - pX u ^ 2) * (1 - pX f ^ 2) ≤ 1 := by nlinarith [sq_nonneg (pX u * pX f)]
  have hA2 : (pY u * pZ f - pZ u * pY f) ^ 2 ≤ 1 := by
    nlinarith [sq_nonneg (pY u * pY f + pZ u * pZ f)]
  show pY u * pZ f - pZ u * pY f ≤ 1
  nlinarith [sq_nonneg (pY u * pZ f - pZ u * pY f - 1)]

/-! ## C5: totality and neutral fallbacks -/

/-- C5: every core operation is total: short lists give `UNKNOWN`, a false
pinch test, the palm-size fallback 0.1 and the identity quaternion; a
zero-length forward vector gives the identity quaternion immediately; a
zero-length right (resp. up) vector is replaced by the fallback `(1,0,0)`
(resp. `(0,1,0)`); and on any full 21-point list with nonzero forward
vector the selected quaternion branch has a strictly positive square-root
argument, so no operation divides by zero. -/
theorem C5_totality (d : GestureDetector) :
    (∀ lm : List Point, lm.length < 21 → d.detect_gesture lm = "UNKNOWN") ∧
    (∀ lm : List Point, lm.length < 21 → ¬d.detect_pinch lm) ∧
    (∀ lm : List Point, lm.length < 21 → calculate_palm_size lm = 0.1) ∧
    (∀ lm : List Point, lm.length < 21 →
      d.calculate_hand_orientation lm = (1.0, 0.0, 0.0, 0.0)) ∧
    (∀ lm : List Point, vnorm (forwardRaw lm) = 0 →
      d.calculate_hand_orientation lm = (1.0, 0.0, 0.0, 0.0)) ∧
    (∀ lm : List Point, vnorm (rightRaw lm) = 0 → rightUnit lm = (1, 0, 0)) ∧
    (∀ lm : List Point, vnorm (upRaw lm) = 0 → upVec lm = (0, 1, 0)) ∧
    (∀ lm : List Point, lm.length = 21 → 0 < vnorm (forwardRaw lm) →
      0 < selectedBranchArg (rightVec lm) (upVec lm) (forwardVec lm)) := by
  refine ⟨?_, ?_, ?_, ?_, ?_, ?_, ?_, ?_⟩
  · intro lm h
    simp [GestureDetector.detect_gesture, h]
  · intro lm h
    simp [GestureDetector.detect_pinch, h]
  · intro lm h
    simp [calculate_palm_size, h]
  · intro lm h
    simp [GestureDetector.calculate_hand_orientation, h]
  · intro lm hv
    unfold GestureDetector.calculate_hand_orientation
    split_ifs with hl hfwd
    · rfl
    · exact absurd (hv ▸ hfwd) (lt_irrefl 0)
    · rfl
  · intro lm hv
    unfold rightUnit
    rw [if_neg]
    rw [hv]
    exact lt_irrefl 0
  · intro lm hv
    unfold upVec
    rw [if_neg]
    rw [hv]
    exact lt_irrefl 0
  · intro lm _hlen hf
    have hsf := sumSq_forwardVec lm hf
    have hsu := sumSq_upVec lm
    have h00 : pX (rightVec lm) ≤ 1 := cross_pX_le_one _ _ hsu hsf
    have h11 : pY (upVec lm) ≤ 1 := pY_le_one_of_sumSq _ hsu
    have h22 : pZ (forwardVec lm) ≤ 1 := pZ_le_one_of_sumSq _ hsf
    unfold selectedBranchArg
    exact branchArg_pos_of_diag_le _ _ _ h00 h11 h22

/-- Witness for C5: the short-list clause applied at the empty landmark list. -/
theorem C5_totality_witness :
    ([] : List Point).length < 21 ∧ d0.detect_gesture [] = "UNKNOWN" :=
  ⟨by norm_num, (C5_totality d0).1 [] (by norm_num)⟩

/-! ## C1: the gesture decision priority chain -/

/-- The gesture decision chain as the claim states it: a priority-ordered
list of guards, first match winning, where "four or more fingers extended"
is spelled as a disjunction over the five 4-element subsets. -/
def gesturePrioritySpec (d : GestureDetector) (lm : List Point) : Prop :=
  let pinch := calculate_distance (nth lm THUMB_TIP) (nth lm INDEX_FINGER_TIP) <
    d.pinch_threshold
  let tE := d.is_finger_extended lm "thumb"
  let iE := d.is_finger_extended lm "index"
  let mE := d.is_finger_extended lm "middle"
  let rE := d.is_finger_extended lm "ring"
  let pE := d.is_finger_extended lm "pinky"
  let fist := ¬tE ∧ ¬iE ∧ ¬mE ∧ ¬rE ∧ ¬pE
  let point := iE ∧ ¬mE ∧ ¬rE ∧ ¬pE ∧ ¬tE
  let peace := iE ∧ mE ∧ ¬rE ∧ ¬pE
  let thumbsUp := tE ∧ ¬iE ∧ ¬mE ∧ ¬rE ∧ ¬pE
  let fourOrMore := (iE ∧ mE ∧ rE ∧ pE) ∨ (tE ∧ mE ∧ rE ∧ pE) ∨ (tE ∧ iE ∧ rE ∧ pE) ∨
    (tE ∧ iE ∧ mE ∧ pE) ∨ (tE ∧ iE ∧ mE ∧ rE)
  (pinch → d.detect_gesture lm = "PINCH") ∧
  (¬pinch → fist → d.detect_gesture lm = "FIST") ∧
  (¬pinch → ¬fist → point → d.detect_gesture lm = "POINT") ∧
  (¬pinch → ¬fist → ¬point → peace → d.detect_gesture lm = "PEACE") ∧
  (¬pinch → ¬fist → ¬point → ¬peace → thumbsUp → d.detect_gesture lm = "THUMBS_UP") ∧
  (¬pinch → ¬fist → ¬point → ¬peace → ¬thumbsUp → fourOrMore →
    d.detect_gesture lm = "OPEN") ∧
  (¬pinch → ¬fist → ¬point → ¬peace → ¬thumbsUp → ¬fourOrMore →
    d.detect_gesture lm = "UNKNOWN")

set_option maxHeartbeats 1000000 in
/-- C1: on every 21-point landmark list, `detect_gesture` implements exactly
the priority chain PINCH, FIST, POINT (thumb must be down), PEACE (thumb
unconstrained), THUMBS_UP, OPEN (four or more extended), UNKNOWN,
first match winning. -/
theorem C1_gesture_priority (d : GestureDetector) (lm : List Point)
    (h : lm.length = 21) : gesturePrioritySpec d lm := by
  have hlt : ¬lm.length < 21 := by omega
  have hpinch : d.detect_pinch lm ↔
      calculate_distance (nth lm THUMB_TIP) (nth lm INDEX_FINGER_TIP) <
        d.pinch_threshold := by
    simp [GestureDetector.detect_pinch, hlt]
  unfold gesturePrioritySpec GestureDetector.detect_gesture
  rw [if_neg hlt]
  by_cases hPin : d.detect_pinch lm <;>
  by_cases hT : d.is_finger_extended lm "thumb" <;>
  by_cases hI : d.is_finger_extended lm "index" <;>
  by_cases hM : d.is_finger_extended lm "middle" <;>
  by_cases hR : d.is_finger_extended lm "ring" <;>
  by_cases hP : d.is_finger_extended lm "pinky" <;>
    simp only [hpinch] at hPin <;>
    simp_all

/-- Witness for C1 at a concrete 21-point landmark list. -/
theorem C1_gesture_priority_witness :
    lmZeros.length = 21 ∧ gesturePrioritySpec d0 lmZeros :=
  ⟨rfl, C1_gesture_priority d0 lmZeros rfl⟩

/-! ## Concrete landmark lists for the orientation theorems -/

/-- Landmarks (21) with wrist `(0,0,0)`, index MCP `(1,-1,0)` and middle MCP
`(1,0,0)`: a non-degenerate basis (`forward = (1,0,0)`, `right = (0,1,0)`,
`up = (0,0,1)` after construction). -/
def lmOrtho : List Point :=
  [(0, 0, 0), (0, 0, 0), (0, 0, 0), (0, 0, 0), (0, 0, 0), (1, -1, 0), (0, 0, 0),
   (0, 0, 0), (0, 0, 0), (1, 0, 0), (0, 0, 0), (0, 0, 0), (0, 0, 0), (0, 0, 0),
   (0, 0, 0), (0, 0, 0), (0, 0, 0), (0, 0, 0), (0, 0, 0), (0, 0, 0), (0, 0, 0)]

/-- Landmarks (21) with wrist `(0,0,0)`, index MCP `(0,1/2,0)` and middle MCP
`(0,1,0)`: the raw right vector is parallel to forward, so the up fallback
`(0,1,0)` fires and the recomputed right vector collapses to zero. -/
def lmUpDeg : List Point :=
  [(0, 0, 0), (0, 0, 0), (0, 0, 0), (0, 0, 0), (0, 0, 0), (0, 1/2, 0), (0, 0, 0),
   (0, 0, 0), (0, 0, 0), (0, 1, 0), (0, 0, 0), (0, 0, 0), (0, 0, 0), (0, 0, 0),
   (0, 0, 0), (0, 0, 0), (0, 0, 0), (0, 0, 0), (0, 0, 0), (0, 0, 0), (0, 0, 0)]

/-- Modelled from the spec (§4.2 step 5): the conversion that treats
`[right | up | forward]` as the COLUMNS of the 3×3 rotation matrix, i.e.
`m00 = right.x, m10 = right.y, m20 = right.z, m01 = up.x, ...` — the
comparison definition for the row/column question. -/
def quatFromColumns (right up forward : Point) : ℝ × ℝ × ℝ × ℝ :=
  quatFromRows (pX right, pX up, pX forward) (pY right, pY up, pY forward)
    (pZ right, pZ up, pZ forward)

/-- Modelled from the spec: the orientation pipeline with the column-matrix
conversion of §4.2 step 5 in place of the code's row-matrix conversion. -/
def calculate_hand_orientation_columns (landmarks : List Point) : ℝ × ℝ × ℝ × ℝ :=
  if landmarks.length < 21 then (1.0, 0.0, 0.0, 0.0)
  else if vnorm (forwardRaw landmarks) > 0 then
    quatFromColumns (rightVec landmarks) (upVec landmarks) (forwardVec landmarks)
  else (1.0, 0.0, 0.0, 0.0)

/-! ### Evaluation of the basis construction on `lmOrtho` -/

theorem forwardRaw_lmOrtho : forwardRaw lmOrtho = ((1 : ℝ), 0, 0) := by
  have n9 : nth lmOrtho 9 = ((1 : ℝ), 0, 0) := rfl
  have n0 : nth lmOrtho 0 = ((0 : ℝ), 0, 0) := rfl
  unfold forwardRaw MIDDLE_FINGER_MCP WRIST
  rw [n9, n0]
  unfold vsub pX pY pZ
  norm_num

theorem vnorm_e1 : vnorm ((1 : ℝ), 0, 0) = 1 := by
  unfold vnorm sumSq pX pY pZ
  norm_num

theorem forwardVec_lmOrtho : forwardVec lmOrtho = ((1 : ℝ), 0, 0) := by
  unfold forwardVec
  rw [forwardRaw_lmOrtho, vnorm_e1]
  unfold vdiv pX pY pZ
  norm_num

theorem vnorm_e2 : vnorm ((0 : ℝ), 1, 0) = 1 := by
  unfold vnorm sumSq pX pY pZ
  norm_num

theorem vnorm_e3 : vnorm ((0 : ℝ), 0, 1) = 1 := by
  unfold vnorm sumSq pX pY pZ
  norm_num

theorem rightRaw_lmOrtho : rightRaw lmOrtho = ((0 : ℝ), 1, 0) := by
  have n9 : nth lmOrtho 9 = ((1 : ℝ), 0, 0) := rfl
  have n5 : nth lmOrtho 5 = ((1 : ℝ), -1, 0) := rfl
  unfold rightRaw MIDDLE_FINGER_MCP INDEX_FINGER_MCP
  rw [n9, n5]
  unfold vsub pX pY pZ
  norm_num

theorem rightUnit_lmOrtho : rightUnit lmOrtho = ((0 : ℝ), 1, 0) := by
  unfold rightUnit
  rw [rightRaw_lmOrtho, vnorm_e2, if_pos (by norm_num : (0 : ℝ) < 1)]
  unfold vdiv pX pY pZ
  norm_num

theorem upRaw_lmOrtho : upRaw lmOrtho = ((0 : ℝ), 0, 1) := by
  unfold upRaw
  rw [forwardVec_lmOrtho, rightUnit_lmOrtho]
  unfold cross pX pY pZ
  norm_num

theorem upVec_lmOrtho : upVec lmOrtho = ((0 : ℝ), 0, 1) := by
  unfold upVec
  rw [upRaw_lmOrtho, vnorm_e3, if_pos (by norm_num : (0 : ℝ) < 1)]
  unfold vdiv pX pY pZ
  norm_num

theorem rightVec_lmOrtho : rightVec lmOrtho = ((0 : ℝ), 1, 0) := by
  unfold rightVec
  rw [upVec_lmOrtho, forwardVec_lmOrtho]
  unfold cross pX pY pZ
  norm_num

theorem orientation_lmOrtho :
    d0.calculate_hand_orientation lmOrtho = (-(1 / 2), 1 / 2, 1 / 2, 1 / 2) := by
  have hlt : ¬lmOrtho.length < 21 := by simp [lmOrtho]
  unfold GestureDetector.calculate_hand_orientation
  rw [if_neg hlt, if_pos (by rw [forwardRaw_lmOrtho, vnorm_e1]; norm_num :
    vnorm (forwardRaw lmOrtho) > 0)]
  rw [rightVec_lmOrtho, upVec_lmOrtho, forwardVec_lmOrtho]
  unfold quatFromRows pX pY pZ
  norm_num [Real.sqrt_one]

/-- Evaluation of the spec's column-matrix pipeline on `lmOrtho`. -/
theorem orientation_columns_lmOrtho :
    calculate_hand_orientation_columns lmOrtho = (1 / 2, 1 / 2, 1 / 2, 1 / 2) := by
  have hlt : ¬lmOrtho.length < 21 := by simp [lmOrtho]
  unfold calculate_hand_orientation_columns
  rw [if_neg hlt, if_pos (by rw [forwardRaw_lmOrtho, vnorm_e1]; norm_num :
    vnorm (forwardRaw lmOrtho) > 0)]
  rw [rightVec_lmOrtho, upVec_lmOrtho, forwardVec_lmOrtho]
  unfold quatFromColumns quatFromRows pX pY pZ
  norm_num [Real.sqrt_one]

/-! ### Evaluation of the basis construction on `lmUpDeg` -/

theorem forwardRaw_lmUpDeg : forwardRaw lmUpDeg = ((0 : ℝ), 1, 0) := by
  have n9 : nth lmUpDeg 9 = ((0 : ℝ), 1, 0) := rfl
  have n0 : nth lmUpDeg 0 = ((0 : ℝ), 0, 0) := rfl
  unfold forwardRaw MIDDLE_FINGER_MCP WRIST
  rw [n9, n0]
  unfold vsub pX pY pZ
  norm_num

theorem forwardVec_lmUpDeg : forwardVec lmUpDeg = ((0 : ℝ), 1, 0) := by
  unfold forwardVec
  rw [forwardRaw_lmUpDeg, vnorm_e2]
  unfold vdiv pX pY pZ
  norm_num

theorem rightRaw_lmUpDeg : rightRaw lmUpDeg = ((0 : ℝ), 1 / 2, 0) := by
  have n9 : nth lmUpDeg 9 = ((0 : ℝ), 1, 0) := rfl
  have n5 : nth lmUpDeg 5 = ((0 : ℝ), 1 / 2, 0) := rfl
  unfold rightRaw MIDDLE_FINGER_MCP INDEX_FINGER_MCP
  rw [n9, n5]
  unfold vsub pX pY pZ
  norm_num

theorem vnorm_half : vnorm ((0 : ℝ), 1 / 2, 0) = 1 / 2 := by
  unfold vnorm sumSq pX pY pZ
  rw [show (0 : ℝ) ^ 2 + (1 / 2) ^ 2 + 0 ^ 2 = (1 / 2) ^ 2 by norm_num,
    Real.sqrt_sq (by norm_num)]

theorem rightUnit_lmUpDeg : rightUnit lmUpDeg = ((0 : ℝ), 1, 0) := by
  unfold rightUnit
  rw [rightRaw_lmUpDeg, vnorm_half, if_pos (by norm_num : (0 : ℝ) < 1 / 2)]
  unfold vdiv pX pY pZ
  norm_num

theorem upRaw_lmUpDeg : upRaw lmUpDeg = ((0 : ℝ), 0, 0) := by
  unfold upRaw
  rw [forwardVec_lmUpDeg, rightUnit_lmUpDeg]
  unfold cross pX pY pZ
  norm_num

theorem upVec_lmUpDeg : upVec lmUpDeg = ((0 : ℝ), 1, 0) := by
  unfold upVec
  rw [upRaw_lmUpDeg]
  rw [if_neg]
  rw [show vnorm ((0 : ℝ), 0, 0) = 0 by unfold vnorm sumSq pX pY pZ; norm_num]
  exact lt_irrefl 0

theorem rightVec_lmUpDeg : rightVec lmUpDeg = ((0 : ℝ), 0, 0) := by
  unfold rightVec
  rw [upVec_lmUpDeg, forwardVec_lmUpDeg]
  unfold cross pX pY pZ
  norm_num

/-- On `lmUpDeg` the code returns the quaternion
`(0.25 / (0.5 / √2), 0.5 / √2, 0, 0)` through the trace branch. -/
theorem orientation_lmUpDeg :
    d0.calculate_hand_orientation lmUpDeg =
      (0.25 / (0.5 / Real.sqrt 2), 0.5 / Real.sqrt 2, 0, 0) := by
  have hlt : ¬lmUpDeg.length < 21 := by simp [lmUpDeg]
  unfold GestureDetector.calculate_hand_orientation
  rw [if_neg hlt, if_pos (by rw [forwardRaw_lmUpDeg, vnorm_e2]; norm_num :
    vnorm (forwardRaw lmUpDeg) > 0)]
  rw [rightVec_lmUpDeg, upVec_lmUpDeg, forwardVec_lmUpDeg]
  unfold quatFromRows pX pY pZ
  norm_num

/-! ## Unit norm of the converted quaternion on orthonormal inputs -/

theorem dot_vdiv_left (p w : Point) (s : ℝ) : dot (vdiv p s) w = dot p w / s := by
  unfold dot vdiv pX pY pZ
  ring

theorem dot_cross_left (p q : Point) : dot (cross p q) p = 0 := by
  unfold dot cross pX pY pZ
  ring

/-- The final up vector is orthogonal to the forward vector whenever the raw
up vector (a cross product with the forward vector) is nonzero. -/
theorem dot_upVec_forwardVec (lm : List Point) (hu : 0 < vnorm (upRaw lm)) :
    dot (upVec lm) (forwardVec lm) = 0 := by
  unfold upVec
  rw [if_pos hu]
  have hz : dot (upRaw lm) (forwardVec lm) = 0 := by
    show dot (cross (forwardVec lm) (rightUnit lm)) (forwardVec lm) = 0
    unfold dot cross pX pY pZ
    ring
  rw [dot_vdiv_left, hz, zero_div]

/-- On any matrix whose rows are `cross u f`, `u`, `f` with `u`, `f` unit and
orthogonal, the four-branch conversion returns a quaternion of squared norm 1. -/
theorem quatFromRows_cross_normSq (u f : Point) (hu : sumSq u = 1) (hf : sumSq f = 1)
    (huf : dot u f = 0) : quatNormSq (quatFromRows (cross u f) u f) = 1 := by
  obtain ⟨a, b, c⟩ := u
  obtain ⟨d, e, g⟩ := f
  simp only [sumSq, dot, pX, pY, pZ] at hu hf huf
  simp only [quatFromRows, cross, pX, pY, pZ]
  split_ifs with ht h2 h3
  · simp only [quatNormSq]
    have hTpos : (0:ℝ) < b * g - c * e + b + g + 1.0 := by norm_num; linarith
    have hTne : b * g - c * e + b + g + 1.0 ≠ 0 := ne_of_gt hTpos
    set s := Real.sqrt (b * g - c * e + b + g + 1.0) with hs_def
    have hs_pos : 0 < s := Real.sqrt_pos.mpr hTpos
    have hs_ne : s ≠ 0 := ne_of_gt hs_pos
    have hs2 : s ^ 2 = b * g - c * e + b + g + 1.0 := Real.sq_sqrt hTpos.le
    have key : (e - c) ^ 2 + (a * e - b * d - d) ^ 2 + (a - (c * d - a * g)) ^ 2 =
        (b * g - c * e + b + g + 1.0) * (4 - (b * g - c * e + b + g + 1.0)) := by
      linear_combination (1 + 2*g + g^2 + e^2 + d^2) * hu + (2 + 2*b) * hf +
        (-2*e - 2*c - c*g - b*e - a*d) * huf
    calc (0.25 / (0.5 / s)) ^ 2 + ((e - c) * (0.5 / s)) ^ 2 +
        ((a * e - b * d - d) * (0.5 / s)) ^ 2 + ((a - (c * d - a * g)) * (0.5 / s)) ^ 2
        = 0.25 * s ^ 2 +
          ((e - c) ^ 2 + (a * e - b * d - d) ^ 2 + (a - (c * d - a * g)) ^ 2) *
            (0.25 / s ^ 2) := by
          field_simp
          ring
      _ = 0.25 * (b * g - c * e + b + g + 1.0) +
          ((b * g - c * e + b + g + 1.0) * (4 - (b * g - c * e + b + g + 1.0))) *
            (0.25 / (b * g - c * e + b + g + 1.0)) := by rw [hs2, key]
      _ = 1 := by field_simp; ring
  · simp only [quatNormSq]
    have hD : (0:ℝ) < 1.0 + (b * g - c * e) - b - g := by
      norm_num
      linarith [h2.1, h2.2]
    have hDne : (1.0 : ℝ) + (b * g - c * e) - b - g ≠ 0 := ne_of_gt hD
    set s := Real.sqrt (1.0 + (b * g - c * e) - b - g) with hs_def
    have hs_pos : 0 < s := Real.sqrt_pos.mpr hD
    have hs_ne : s ≠ 0 := ne_of_gt hs_pos
    have hs2 : s ^ 2 = 1.0 + (b * g - c * e) - b - g := Real.sq_sqrt hD.le
    have key : (e - c) ^ 2 + (c * d - a * g + a) ^ 2 + (a * e - b * d + d) ^ 2 =
        (1.0 + (b * g - c * e) - b - g) * (4 - (1.0 + (b * g - c * e) - b - g)) := by
      linear_combination (1 - 2*g + g^2 + e^2 + d^2) * hu + (2 - 2*b) * hf +
        (2*e + 2*c - c*g - b*e - a*d) * huf
    calc ((e - c) / (2.0 * s)) ^ 2 + (0.25 * (2.0 * s)) ^ 2 +
        ((c * d - a * g + a) / (2.0 * s)) ^ 2 + ((a * e - b * d + d) / (2.0 * s)) ^ 2
        = ((e - c) ^ 2 + (c * d - a * g + a) ^ 2 + (a * e - b * d + d) ^ 2) *
            (1 / (4 * s ^ 2)) + 0.25 * s ^ 2 := by field_simp; ring
      _ = ((1.0 + (b * g - c * e) - b - g) * (4 - (1.0 + (b * g - c * e) - b - g))) *
            (1 / (4 * (1.0 + (b * g - c * e) - b - g))) +
          0.25 * (1.0 + (b * g - c * e) - b - g) := by rw [hs2, key]
      _ = 1 := by field_simp; ring
  · simp only [quatNormSq]
    have hD : (0:ℝ) < 1.0 + b - (b * g - c * e) - g := by
      push_neg at ht h2
      rcases le_or_lt (b * g - c * e) b with hc | hc
      · norm_num; linarith
      · have := h2 hc
        norm_num
        linarith
    have hDne : (1.0 : ℝ) + b - (b * g - c * e) - g ≠ 0 := ne_of_gt hD
    set s := Real.sqrt (1.0 + b - (b * g - c * e) - g) with hs_def
    have hs_pos : 0 < s := Real.sqrt_pos.mpr hD
    have hs_ne : s ≠ 0 := ne_of_gt hs_pos
    have hs2 : s ^ 2 = 1.0 + b - (b * g - c * e) - g := Real.sq_sqrt hD.le
    have key : (a * e - b * d - d) ^ 2 + (c * d - a * g + a) ^ 2 + (c + e) ^ 2 =
        (1.0 + b - (b * g - c * e) - g) * (4 - (1.0 + b - (b * g - c * e) - g)) := by
      linear_combination (1 - 2*g + g^2 + e^2 + d^2) * hu + (2 + 2*b) * hf +
        (-2*e + 2*c - c*g - b*e - a*d) * huf
    calc ((a * e - b * d - d) / (2.0 * s)) ^ 2 + ((c * d - a * g + a) / (2.0 * s)) ^ 2 +
        (0.25 * (2.0 * s)) ^ 2 + ((c + e) / (2.0 * s)) ^ 2
        = ((a * e - b * d - d) ^ 2 + (c * d - a * g + a) ^ 2 + (c + e) ^ 2) *
            (1 / (4 * s ^ 2)) + 0.25 * s ^ 2 := by field_simp; ring
      _ = ((1.0 + b - (b * g - c * e) - g) * (4 - (1.0 + b - (b * g - c * e) - g))) *
            (1 / (4 * (1.0 + b - (b * g - c * e) - g))) +
          0.25 * (1.0 + b - (b * g - c * e) - g) := by rw [hs2, key]
      _ = 1 := by field_simp; ring
  · simp only [quatNormSq]
    have hD : (0:ℝ) < 1.0 + g - (b * g - c * e) - b := by
      push_neg at ht h2 h3
      have hm2 : b * g - c * e ≤ g := by
        rcases le_or_lt (b * g - c * e) b with hc | hc
        · linarith
        · exact h2 hc
      rcases le_or_lt 0 g with hz | hz
      · norm_num; linarith
      · norm_num; linarith
    have hDne : (1.0 : ℝ) + g - (b * g - c * e) - b ≠ 0 := ne_of_gt hD
    set s := Real.sqrt (1.0 + g - (b * g - c * e) - b) with hs_def
    have hs_pos : 0 < s := Real.sqrt_pos.mpr hD
    have hs_ne : s ≠ 0 := ne_of_gt hs_pos
    have hs2 : s ^ 2 = 1.0 + g - (b * g - c * e) - b := Real.sq_sqrt hD.le
    have key : (a - (c * d - a * g)) ^ 2 + (a * e - b * d + d) ^ 2 + (c + e) ^ 2 =
        (1.0 + g - (b * g - c * e) - b) * (4 - (1.0 + g - (b * g - c * e) - b)) := by
      linear_combination (1 + 2*g + g^2 + e^2 + d^2) * hu + (2 - 2*b) * hf +
        (2*e - 2*c - c*g - b*e - a*d) * huf
    calc ((a - (c * d - a * g)) / (2.0 * s)) ^ 2 + ((a * e - b * d + d) / (2.0 * s)) ^ 2 +
        ((c + e) / (2.0 * s)) ^ 2 + (0.25 * (2.0 * s)) ^ 2
        = ((a - (c * d - a * g)) ^ 2 + (a * e - b * d + d) ^ 2 + (c + e) ^ 2) *
            (1 / (4 * s ^ 2)) + 0.25 * s ^ 2 := by field_simp; ring
      _ = ((1.0 + g - (b * g - c * e) - b) * (4 - (1.0 + g - (b * g - c * e) - b))) *
            (1 / (4 * (1.0 + g - (b * g - c * e) - b))) +
          0.25 * (1.0 + g - (b * g - c * e) - b) := by rw [hs2, key]
      _ = 1 := by field_simp; ring

/-- C6 (amended): on every 21-point landmark list whose forward vector and
raw up vector (the cross product `forward × right`) are both nonzero, the
returned quaternion has squared norm exactly 1. -/
theorem C6_unit_quaternion (d : GestureDetector) (lm : List Point)
    (h : lm.length = 21) (hfw : 0 < vnorm (forwardRaw lm))
    (hup : 0 < vnorm (upRaw lm)) :
    quatNormSq (d.calculate_hand_orientation lm) = 1 := by
  have hlt : ¬lm.length < 21 := by omega
  unfold GestureDetector.calculate_hand_orientation
  rw [if_neg hlt, if_pos hfw]
  have hru : rightVec lm = cross (upVec lm) (forwardVec lm) := rfl
  rw [hru]
  exact quatFromRows_cross_normSq _ _ (sumSq_upVec lm) (sumSq_forwardVec lm hfw)
    (dot_upVec_forwardVec lm hup)

/-- Witness for C6 (amended) on the non-degenerate input `lmOrtho`. -/
theorem C6_unit_quaternion_witness :
    (lmOrtho.length = 21 ∧ 0 < vnorm (forwardRaw lmOrtho) ∧
      0 < vnorm (upRaw lmOrtho)) ∧
    quatNormSq (d0.calculate_hand_orientation lmOrtho) = 1 := by
  have hfw : 0 < vnorm (forwardRaw lmOrtho) := by
    rw [forwardRaw_lmOrtho, vnorm_e1]; norm_num
  have hup : 0 < vnorm (upRaw lmOrtho) := by
    rw [upRaw_lmOrtho, vnorm_e3]; norm_num
  exact ⟨⟨rfl, hfw, hup⟩, C6_unit_quaternion d0 lmOrtho rfl hfw hup⟩

/-- Counterexample to C6 as stated: on `lmUpDeg` (a full 21-point list that
takes the up-fallback path) the returned quaternion has squared norm 5/8,
not 1, and its norm is below 1 by far more than the 1e-5 tolerance. -/
theorem C6_norm_counterexample :
    quatNormSq (d0.calculate_hand_orientation lmUpDeg) = 5 / 8 ∧
    quatNormSq (d0.calculate_hand_orientation lmUpDeg) ≠ 1 ∧
    Real.sqrt (5 / 8) < 1 - 1 / 100000 := by
  have hs2 : Real.sqrt 2 ^ 2 = 2 := Real.sq_sqrt (by norm_num)
  have hspos : 0 < Real.sqrt 2 := Real.sqrt_pos.mpr (by norm_num)
  have hne : Real.sqrt 2 ≠ 0 := ne_of_gt hspos
  have hval : quatNormSq (d0.calculate_hand_orientation lmUpDeg) = 5 / 8 := by
    rw [orientation_lmUpDeg]
    unfold quatNormSq
    field_simp
    linear_combination hs2
  refine ⟨hval, by rw [hval]; norm_num, ?_⟩
  have hsq : Real.sqrt (5 / 8) ^ 2 = 5 / 8 := Real.sq_sqrt (by norm_num)
  nlinarith [Real.sqrt_nonneg (5 / 8 : ℝ), hsq]

/-! ## C3: the matrix-to-quaternion step uses rows, not columns -/

/-- C3: at the concrete non-degenerate input `lmOrtho` the code (which
unpacks right/up/forward as the ROWS of the matrix) returns
`(-1/2, 1/2, 1/2, 1/2)`, while the conversion the spec describes (vectors
as COLUMNS) yields `(1/2, 1/2, 1/2, 1/2)`: the two disagree. -/
theorem C3_rows_vs_columns :
    d0.calculate_hand_orientation lmOrtho = (-(1 / 2), 1 / 2, 1 / 2, 1 / 2) ∧
    calculate_hand_orientation_columns lmOrtho = (1 / 2, 1 / 2, 1 / 2, 1 / 2) ∧
    d0.calculate_hand_orientation lmOrtho ≠ calculate_hand_orientation_columns lmOrtho := by
  refine ⟨orientation_lmOrtho, orientation_columns_lmOrtho, ?_⟩
  rw [orientation_lmOrtho, orientation_columns_lmOrtho]
  intro hcontra
  have h1 : (-(1 / 2) : ℝ) = 1 / 2 := congrArg Prod.fst hcontra
  norm_num at h1

/-! ## C10: the selected conversion branch never takes a negative square root
and never divides by zero -/

/-- C10: when the rows right/up/forward form an orthonormal basis, the branch
selected by the guards of the quaternion conversion has a strictly positive
square-root argument (`trace + 1`, `1 + m00 - m11 - m22`,
`1 + m11 - m00 - m22`, `1 + m22 - m00 - m11` respectively) and its divisor
`s` is nonzero. -/
theorem C10_branch_division_safety (r u f : Point)
    (hr : sumSq r = 1) (hu : sumSq u = 1) (hf : sumSq f = 1)
    (_hru : dot r u = 0) (_hrf : dot r f = 0) (_huf : dot u f = 0) :
    (pX r + pY u + pZ f > 0 →
      0 < pX r + pY u + pZ f + 1 ∧
      0.5 / Real.sqrt (pX r + pY u + pZ f + 1) ≠ 0) ∧
    (¬(pX r + pY u + pZ f > 0) → pX r > pY u → pX r > pZ f →
      0 < 1 + pX r - pY u - pZ f ∧
      2.0 * Real.sqrt (1 + pX r - pY u - pZ f) ≠ 0) ∧
    (¬(pX r + pY u + pZ f > 0) → ¬(pX r > pY u ∧ pX r > pZ f) → pY u > pZ f →
      0 < 1 + pY u - pX r - pZ f ∧
      2.0 * Real.sqrt (1 + pY u - pX r - pZ f) ≠ 0) ∧
    (¬(pX r + pY u + pZ f > 0) → ¬(pX r > pY u ∧ pX r > pZ f) → ¬(pY u > pZ f) →
      0 < 1 + pZ f - pX r - pY u ∧
      2.0 * Real.sqrt (1 + pZ f - pX r - pY u) ≠ 0) := by
  have h00 : pX r ≤ 1 := pX_le_one_of_sumSq r hr
  have h11 : pY u ≤ 1 := pY_le_one_of_sumSq u hu
  have h22 : pZ f ≤ 1 := pZ_le_one_of_sumSq f hf
  refine ⟨?_, ?_, ?_, ?_⟩
  · intro ht
    have hp : 0 < pX r + pY u + pZ f + 1 := by linarith
    exact ⟨hp, div_ne_zero (by norm_num) (ne_of_gt (Real.sqrt_pos.mpr hp))⟩
  · intro _ht hd1 hd2
    have hp : 0 < 1 + pX r - pY u - pZ f := by linarith
    exact ⟨hp, mul_ne_zero (by norm_num) (ne_of_gt (Real.sqrt_pos.mpr hp))⟩
  · intro ht hd1 hd3
    push_neg at ht hd1
    have hp : 0 < 1 + pY u - pX r - pZ f := by
      rcases le_or_lt (pX r) (pY u) with hc | hc
      · linarith
      · have := hd1 hc
        linarith
    exact ⟨hp, mul_ne_zero (by norm_num) (ne_of_gt (Real.sqrt_pos.mpr hp))⟩
  · intro ht hd1 hd3
    push_neg at ht hd1 hd3
    have hm2 : pX r ≤ pZ f := by
      rcases le_or_lt (pX r) (pY u) with hc | hc
      · linarith
      · exact hd1 hc
    have hp : 0 < 1 + pZ f - pX r - pY u := by
      rcases le_or_lt 0 (pZ f) with hz | hz
      · linarith
      · linarith
    exact ⟨hp, mul_ne_zero (by norm_num) (ne_of_gt (Real.sqrt_pos.mpr hp))⟩

/-- Witness for C10 at the standard orthonormal basis. -/
theorem C10_branch_division_safety_witness :
    (sumSq ((0 : ℝ), 1, 0) = 1 ∧ sumSq ((0 : ℝ), 0, 1) = 1 ∧
      sumSq ((1 : ℝ), 0, 0) = 1 ∧ dot ((0 : ℝ), 1, 0) ((0 : ℝ), 0, 1) = 0 ∧
      dot ((0 : ℝ), 1, 0) ((1 : ℝ), 0, 0) = 0 ∧
      dot ((0 : ℝ), 0, 1) ((1 : ℝ), 0, 0) = 0) ∧
    (pX ((0 : ℝ), 1, 0) + pY ((0 : ℝ), 0, 1) + pZ ((1 : ℝ), 0, 0) > 0 →
      0 < pX ((0 : ℝ), 1, 0) + pY ((0 : ℝ), 0, 1) + pZ ((1 : ℝ), 0, 0) + 1 ∧
      0.5 / Real.sqrt (pX ((0 : ℝ), 1, 0) + pY ((0 : ℝ), 0, 1) +
        pZ ((1 : ℝ), 0, 0) + 1) ≠ 0) := by
  have h1 : sumSq ((0 : ℝ), 1, 0) = 1 := by unfold sumSq pX pY pZ; norm_num
  have h2 : sumSq ((0 : ℝ), 0, 1) = 1 := by unfold sumSq pX pY pZ; norm_num
  have h3 : sumSq ((1 : ℝ), 0, 0) = 1 := by unfold sumSq pX pY pZ; norm_num
  have h4 : dot ((0 : ℝ), 1, 0) ((0 : ℝ), 0, 1) = 0 := by unfold dot pX pY pZ; norm_num
  have h5 : dot ((0 : ℝ), 1, 0) ((1 : ℝ), 0, 0) = 0 := by unfold dot pX pY pZ; norm_num
  have h6 : dot ((0 : ℝ), 0, 1) ((1 : ℝ), 0, 0) = 0 := by unfold dot pX pY pZ; norm_num
  exact ⟨⟨h1, h2, h3, h4, h5, h6⟩,
    (C10_branch_division_safety ((0 : ℝ), 1, 0) ((0 : ℝ), 0, 1) ((1 : ℝ), 0, 0)
      h1 h2 h3 h4 h5 h6).1⟩

/-! ## C4: the protocol encoder -/

/-- The closed set of gesture names produced by the classifier. -/
def gestureNames : List String :=
  ["PINCH", "FIST", "POINT", "PEACE", "THUMBS_UP", "OPEN", "UNKNOWN"]

/-- The number of characters after the last dot: the rendered decimal places. -/
def fracLen (l : List Char) : ℕ :=
  (l.reverse.takeWhile (fun c => c != '.')).length

theorem digitChar_ne (n : ℕ) :
    digitChar n ≠ '.' ∧ digitChar n ≠ '\n' ∧ digitChar n ≠ ' ' := by
  unfold digitChar
  split_ifs <;> exact ⟨by decide, by decide, by decide⟩

theorem fixedDigits_length (k n : ℕ) : (fixedDigits k n).length = k := by
  induction k generalizing n with
  | zero => rfl
  | succ k ih => simp [fixedDigits, ih]

theorem fixedDigits_chars (k n : ℕ) :
    ∀ c ∈ fixedDigits k n, c ≠ '.' ∧ c ≠ '\n' ∧ c ≠ ' ' := by
  induction k generalizing n with
  | zero =>
    intro c hc
    simp [fixedDigits] at hc
  | succ k ih =>
    intro c hc
    simp only [fixedDigits, List.mem_append, List.mem_singleton] at hc
    rcases hc with h | h
    · exact ih _ c h
    · subst h
      exact digitChar_ne _

theorem natChars_chars (n : ℕ) :
    ∀ c ∈ natChars n, c ≠ '.' ∧ c ≠ '\n' ∧ c ≠ ' ' := by
  induction n using Nat.strong_induction_on with
  | _ n ih =>
    unfold natChars
    split_ifs with h
    · intro c hc
      simp only [List.mem_singleton] at hc
      subst hc
      exact digitChar_ne _
    · intro c hc
      rcases List.mem_append.mp hc with h1 | h1
      · exact ih (n / 10) (Nat.div_lt_self (by omega) (by omega)) c h1
      · simp only [List.mem_singleton] at h1
        subst h1
        exact digitChar_ne _

/-- Characterwise properties distribute over list concatenation. -/
theorem chars_append {P : Char → Prop} (l1 l2 : List Char)
    (h1 : ∀ c ∈ l1, P c) (h2 : ∀ c ∈ l2, P c) : ∀ c ∈ l1 ++ l2, P c := by
  intro c hc
  rcases List.mem_append.mp hc with h | h
  · exact h1 c h
  · exact h2 c h

theorem fmtFixed_chars (nd : ℕ) (x : ℝ) :
    ∀ c ∈ fmtFixed nd x, c ≠ '\n' ∧ c ≠ ' ' := by
  unfold fmtFixed
  refine chars_append _ _ (chars_append _ _ (chars_append _ _ ?_ ?_) ?_) ?_
  · split_ifs <;> decide
  · exact fun c hc => ⟨(natChars_chars _ c hc).2.1, (natChars_chars _ c hc).2.2⟩
  · decide
  · exact fun c hc => ⟨(fixedDigits_chars _ _ c hc).2.1, (fixedDigits_chars _ _ c hc).2.2⟩

theorem takeWhile_append_all (p : Char → Bool) (l1 l2 : List Char)
    (h : ∀ c ∈ l1, p c) :
    (l1 ++ l2).takeWhile p = l1 ++ l2.takeWhile p := by
  induction l1 with
  | nil => simp
  | cons x xs ih =>
    simp only [List.cons_append, List.takeWhile_cons, h x (by simp), if_true,
      ih (fun c hc => h c (by simp [hc])), List.cons.injEq, true_and]

/-- Fixed-point rendering `fmtFixed nd x` has exactly `nd` digits after the (last) dot. -/
theorem fracLen_fmtFixed (nd : ℕ) (x : ℝ) : fracLen (fmtFixed nd x) = nd := by
  unfold fracLen fmtFixed
  simp only [List.reverse_append, List.append_assoc, List.reverse_cons,
    List.reverse_nil, List.nil_append, List.cons_append]
  rw [takeWhile_append_all _ _ _ (fun c hc => by
    have := fixedDigits_chars nd _ c (List.mem_reverse.mp hc)
    simp [this.1])]
  simp [List.takeWhile_cons, fixedDigits_length]

theorem gesture_chars (s : String) (h : s ∈ gestureNames) :
    ∀ c ∈ s.data, c ≠ '\n' ∧ c ≠ ' ' := by
  simp only [gestureNames, List.mem_cons, List.not_mem_nil, or_false] at h
  rcases h with h | h | h | h | h | h | h <;> subst h <;> decide

/-- No newline and no space occurs in the encoder's output body. -/
theorem to_protocol_chars (h : HandData)
    (hh : h.hand_type = "left" ∨ h.hand_type = "right")
    (hg : h.gesture ∈ gestureNames) :
    ∀ c ∈ h.to_protocol_string, c ≠ '\n' ∧ c ≠ ' ' := by
  have hup : ∀ c ∈ h.hand_type.data.map Char.toUpper, c ≠ '\n' ∧ c ≠ ' ' := by
    rcases hh with h1 | h1 <;> rw [h1]
    · exact (by decide : ∀ c ∈ "left".data.map Char.toUpper, c ≠ '\n' ∧ c ≠ ' ')
    · exact (by decide : ∀ c ∈ "right".data.map Char.toUpper, c ≠ '\n' ∧ c ≠ ' ')
  unfold HandData.to_protocol_string
  refine chars_append _ _ (chars_append _ _ (chars_append _ _ (chars_append _ _
    (chars_append _ _ (chars_append _ _ (chars_append _ _ (chars_append _ _
    (chars_append _ _ (chars_append _ _ (chars_append _ _ (chars_append _ _
    (chars_append _ _ (chars_append _ _ (chars_append _ _ (chars_append _ _
    (chars_append _ _ (chars_append _ _ (chars_append _ _ (chars_append _ _
    (chars_append _ _ ?_ ?_) ?_) ?_) ?_) ?_) ?_) ?_) ?_) ?_) ?_) ?_) ?_) ?_)
    ?_) ?_) ?_) ?_) ?_) ?_) ?_) ?_
  · decide
  · exact hup
  · decide
  · exact fmtFixed_chars 4 _
  · decide
  · exact fmtFixed_chars 4 _
  · decide
  · exact fmtFixed_chars 4 _
  · decide
  · exact fmtFixed_chars 4 _
  · decide
  · exact fmtFixed_chars 4 _
  · decide
  · exact fmtFixed_chars 4 _
  · decide
  · exact fmtFixed_chars 4 _
  · decide
  · exact fmtFixed_chars 2 _
  · decide
  · exact fmtFixed_chars 2 _
  · decide
  · exact gesture_chars _ hg

/-- The socket layer appends exactly one newline to the encoder's output. -/
theorem wireRecord_eq (h : HandData)
    (hh : h.hand_type = "left" ∨ h.hand_type = "right")
    (hg : h.gesture ∈ gestureNames) :
    wireRecord h = h.to_protocol_string ++ ['\n'] := by
  unfold wireRecord send_payload
  rw [if_neg]
  intro heq
  exact (to_protocol_chars h hh hg '\n' (List.mem_of_getLast?_eq_some heq)).1 rfl

/-- The protocol contract for one hand record: exact field order and
separators, newline termination, fixed decimal places, no spaces or extra
newlines, and dependence on nothing but the six encoded fields. -/
def protocolSpec (h : HandData) : Prop :=
  wireRecord h =
    "HAND:".data ++ (if h.hand_type = "left" then "LEFT" else "RIGHT").data ++
    ",X:".data ++ fmtFixed 4 (pX h.position) ++
    ",Y:".data ++ fmtFixed 4 (pY h.position) ++
    ",Z:".data ++ fmtFixed 4 (pZ h.position) ++
    ",QW:".data ++ fmtFixed 4 h.rotation.1 ++
    ",QX:".data ++ fmtFixed 4 h.rotation.2.1 ++
    ",QY:".data ++ fmtFixed 4 h.rotation.2.2.1 ++
    ",QZ:".data ++ fmtFixed 4 h.rotation.2.2.2 ++
    ",TRIGGER:".data ++ fmtFixed 2 h.trigger_value ++
    ",GRIP:".data ++ fmtFixed 2 h.grip_value ++
    ",GESTURE:".data ++ h.gesture.data ++ ['\n'] ∧
  (∀ x : ℝ, fracLen (fmtFixed 4 x) = 4 ∧ fracLen (fmtFixed 2 x) = 2) ∧
  (wireRecord h).count '\n' = 1 ∧
  ' ' ∉ wireRecord h ∧
  (∀ h2 : HandData, h2.hand_type = h.hand_type → h2.position = h.position →
    h2.rotation = h.rotation → h2.gesture = h.gesture →
    h2.trigger_value = h.trigger_value → h2.grip_value = h.grip_value →
    wireRecord h2 = wireRecord h)

/-- C4: the encoder emits exactly one newline-terminated record in the fixed
comma-separated field order with 4 (resp. 2) decimal places, with no spaces,
as a pure function of the single hand record. -/
theorem C4_protocol_encoding (h : HandData)
    (hh : h.hand_type = "left" ∨ h.hand_type = "right")
    (hg : h.gesture ∈ gestureNames) : protocolSpec h := by
  have hw := wireRecord_eq h hh hg
  refine ⟨?_, fun x => ⟨fracLen_fmtFixed 4 x, fracLen_fmtFixed 2 x⟩, ?_, ?_, ?_⟩
  · rw [hw]
    unfold HandData.to_protocol_string
    rcases hh with h1 | h1 <;> rw [h1]
    · rw [show "left".data.map Char.toUpper = "LEFT".data from by decide, if_pos rfl]
    · rw [show "right".data.map Char.toUpper = "RIGHT".data from by decide,
        if_neg (by decide)]
  · rw [hw, List.count_append]
    have h0 : h.to_protocol_string.count '\n' = 0 :=
      List.count_eq_zero.mpr (fun hmem => (to_protocol_chars h hh hg _ hmem).1 rfl)
    rw [h0]
    rfl
  · rw [hw]
    intro hmem
    rcases List.mem_append.mp hmem with hm | hm
    · exact (to_protocol_chars h hh hg _ hm).2 rfl
    · simp at hm
  · intro h2 e1 e2 e3 e4 e5 e6
    unfold wireRecord send_payload HandData.to_protocol_string
    rw [e1, e2, e3, e4, e5, e6]

/-- A concrete `HandData` record for the C4 witness. -/
def hd0 : HandData :=
  ⟨"left", (0, 0, 0), (1, 0, 0, 0), "OPEN", 0, 0, [], true⟩

/-- Witness for C4 at a concrete hand record. -/
theorem C4_protocol_encoding_witness :
    ((hd0.hand_type = "left" ∨ hd0.hand_type = "right") ∧
      hd0.gesture ∈ gestureNames) ∧ protocolSpec hd0 :=
  ⟨⟨Or.inl rfl, by simp [hd0, gestureNames]⟩,
    C4_protocol_encoding hd0 (Or.inl rfl) (by simp [hd0, gestureNames])⟩

end

end HandCam
